import Mathlib

/-!
Shallow embedding of `app.py` (trakin-tech/youtube_cc): a Flask job pipeline that
downloads a YouTube video's audio through a chain of fallback strategies,
transcribes it, and generates a channel-styled description.  External
collaborators (yt-dlp, the OpenAI and Gemini clients, the filesystem, the clock)
are modelled as explicit parameters; each definition below is translated from the
Python function it is named after.
-/

/-- A Python exception value as observed by the handlers in `app.py`: the
handlers only distinguish `ValueError` from every other `Exception`, and read
`str(e)`. -/
inductive PyErr where
  | valueError (msg : String)
  | otherError (msg : String)
deriving Repr, DecidableEq

/-- Model of `str(e)` for a modelled exception. -/
def PyErr.msgStr : PyErr → String
  | .valueError m => m
  | .otherError m => m

/-- Python truthiness of an optional string (`if not x` in `app.py`):
`None` and the empty string are falsy. -/
def truthy : Option String → Bool
  | none => false
  | some s => !s.isEmpty

/-- The per-session job record stored in `progress_data` (initialised in
`process_video`, app.py lines 584-593; the `strategy` key is only added later by
`_attempt_download`, so it is an `Option`). -/
structure Job where
  status : String
  progress : Nat
  video_title : String
  audio_file : String
  srt_file : String
  description_file : String
  channel : String
  error : Option String
  strategy : Option String
deriving Repr, DecidableEq

/-- The fresh job record built by `process_video` for a new session. -/
def initJob (channel : String) : Job :=
  { status := "Starting...", progress := 0, video_title := "", audio_file := "",
    srt_file := "", description_file := "", channel := channel,
    error := none, strategy := none }

/-- The whitespace characters stripped by Python's `str.rstrip` / `str.strip`. -/
def is_py_whitespace (c : Char) : Bool :=
  c = ' ' || c = '\t' || c = '\n' || c = '\r' || c = Char.ofNat 11 || c = Char.ofNat 12

/-- Drop trailing whitespace from a character list (Python `str.rstrip`). -/
def strip_trailing (l : List Char) : List Char :=
  (l.reverse.dropWhile is_py_whitespace).reverse

/-- Python `str.rstrip()`. -/
def py_rstrip (s : String) : String :=
  ⟨strip_trailing s.data⟩

/-- Python `str.strip()`: drop leading and trailing whitespace. -/
def py_strip (s : String) : String :=
  ⟨strip_trailing (s.data.dropWhile is_py_whitespace)⟩

/-- Python's `str.isalnum` is an external Unicode-table lookup.  The embedding
keeps it abstract wherever the character class matters (the sanitisation
theorems quantify over it) and instantiates it with this ASCII approximation
for the concrete runs below, whose titles are ASCII, where the two agree. -/
def py_isalnum_ascii (c : Char) : Bool :=
  c.isAlphanum

/-- The keep-set of the title sanitisation in `_attempt_download` (app.py line
193), parametric in the meaning of `str.isalnum`: alphanumeric, space, hyphen,
underscore. -/
def keeps_title_char (isalnum : Char → Bool) (c : Char) : Bool :=
  isalnum c || c = ' ' || c = '-' || c = '_'

/-- The `safe_title` computation of `_attempt_download` (app.py line 193),
`"".join(c for c in title if c.isalnum() or c in (' ', '-', '_')).rstrip()`,
parametric in the Unicode tables behind `str.isalnum` (`isalnum`) and in the
whitespace class stripped by `str.rstrip` (`isspace`). -/
def sanitize_title_with (isalnum isspace : Char → Bool) (title : String) : String :=
  ⟨((title.data.filter (keeps_title_char isalnum)).reverse.dropWhile isspace).reverse⟩

/-- The `safe_title` computation with the ASCII instantiations of `str.isalnum`
and of `str.rstrip`'s whitespace class, used for the concrete runs below. -/
def sanitize_title (title : String) : String :=
  sanitize_title_with py_isalnum_ascii is_py_whitespace title

/-- Modelled from the spec: "keep only alphanumeric characters, spaces, hyphens,
and underscores from the raw title; trim trailing whitespace" — parametric in
the same alphanumeric and whitespace classes as the source model, since the
spec's "alphanumeric" denotes the class decided by the program's
`str.isalnum`. -/
def spec_sanitize_title (isalnum isspace : Char → Bool) (title : String) : String :=
  ⟨((title.data.filter fun c => isalnum c || c ∈ [' ', '-', '_']).reverse.dropWhile isspace).reverse⟩

/-- The six download strategies of `download_audio`, in source order. -/
inductive Strategy where
  | cookies
  | android_creator
  | web_embedded
  | mobile_web
  | ios_music
  | android_basic
deriving Repr, DecidableEq

/-- The `strategy_name` string passed to `_attempt_download` for each strategy. -/
def strategy_label : Strategy → String
  | .cookies => "cookies"
  | .android_creator => "android_creator"
  | .web_embedded => "web_embedded"
  | .mobile_web => "mobile_web"
  | .ios_music => "ios_music"
  | .android_basic => "android_basic"

/-- The observable behaviour of yt-dlp under one strategy's options: `extract`
models `ydl.extract_info` (raising, or returning the title already defaulted by
`info.get('title', 'Unknown')`), and `download` models `ydl.download`
(`some e` when it raises). -/
structure StrategyBehavior where
  extract : Except PyErr String
  download : Option PyErr

/-- The file-search loop of `_attempt_download` (app.py lines 206-212): try
`safe_title ++ ".m4a"`, else the first existing alternative extension. -/
def find_audio_file (fsExists : String → Bool) (safe_title : String) : String :=
  let audio := safe_title ++ ".m4a"
  if fsExists audio then audio
  else
    match ([".webm", ".mp4", ".opus", ".aac"].find? fun ext => fsExists (safe_title ++ ext)) with
    | some ext => safe_title ++ ext
    | none => audio

/-- Model of `_attempt_download` (app.py lines 185-221): returns the raised exception or
`(audio_file, safe_title)`, together with the mutated job record. -/
def attempt_download (fsExists : String → Bool) (b : StrategyBehavior)
    (name : String) (job : Job) : Except PyErr (String × String) × Job :=
  match b.extract with
  | .error e => (.error e, job)
  | .ok title =>
    let safe_title := sanitize_title title
    let job := { job with video_title := title, progress := 30, strategy := some name }
    match b.download with
    | some e => (.error e, job)
    | none =>
      let audio_file := find_audio_file fsExists safe_title
      if fsExists audio_file then
        (.ok (audio_file, safe_title), { job with progress := 50, audio_file := audio_file })
      else
        (.error (.otherError ("Downloaded file not found: " ++ audio_file)), job)

/-- The outcome of `_attempt_download`, which does not depend on the job record
passed in. -/
def attemptOutcome (fsExists : String → Bool) (b : StrategyBehavior) :
    Except PyErr (String × String) :=
  match b.extract with
  | .error e => .error e
  | .ok title =>
    let safe_title := sanitize_title title
    match b.download with
    | some e => .error e
    | none =>
      let audio_file := find_audio_file fsExists safe_title
      if fsExists audio_file then .ok (audio_file, safe_title)
      else .error (.otherError ("Downloaded file not found: " ++ audio_file))

/-- Environment of `download_audio`: the `YOUTUBE_COOKIES` variable, the
filesystem, and the behaviour of yt-dlp under each strategy's options. -/
structure DlEnv where
  youtube_cookies : Option String
  fsExists : String → Bool
  behavior : Strategy → StrategyBehavior

/-- Result of `download_audio`: the returned value or raised exception, the
final job record, and the trace of strategies attempted, in order. -/
structure DlResult where
  result : Except PyErr (String × String)
  job : Job
  attempts : List Strategy

/-- One `try: return self._attempt_download(...) / except: pass`-style block of
`download_audio`: return on success, fall through to `next` on exception. -/
def try_strategy (env : DlEnv) (s : Strategy) (job : Job) (att : List Strategy)
    (next : Job → List Strategy → DlResult) : DlResult :=
  let r := attempt_download env.fsExists (env.behavior s) (strategy_label s) job
  match r.1 with
  | .ok v => { result := .ok v, job := r.2, attempts := att ++ [s] }
  | .error _ => next r.2 (att ++ [s])

/-- The final, unguarded strategy 6 of `download_audio` (app.py lines 166-183):
its exception reaches the outer handler, which records
`"All download strategies failed: ..."` in the job record and re-raises. -/
def final_strategy (env : DlEnv) (job : Job) (att : List Strategy) : DlResult :=
  let r := attempt_download env.fsExists (env.behavior .android_basic)
    (strategy_label .android_basic) job
  match r.1 with
  | .ok v => { result := .ok v, job := r.2, attempts := att ++ [Strategy.android_basic] }
  | .error e =>
    { result := .error e,
      job := { r.2 with error := some ("All download strategies failed: " ++ e.msgStr) },
      attempts := att ++ [Strategy.android_basic] }

/-- Model of `download_audio` (app.py lines 49-183): the cookies strategy runs only when
`YOUTUBE_COOKIES` is truthy; strategies 2-5 swallow exceptions and fall through;
strategy 6's exception is recorded by the outer handler and re-raised. -/
def download_audio (env : DlEnv) (job : Job) : DlResult :=
  let job := { job with status := "Downloading audio...", progress := 10 }
  let rest := fun (j : Job) (a : List Strategy) =>
    try_strategy env .android_creator j a fun j a =>
      try_strategy env .web_embedded j a fun j a =>
        try_strategy env .mobile_web j a fun j a =>
          try_strategy env .ios_music j a fun j a =>
            final_strategy env j a
  if truthy env.youtube_cookies then
    try_strategy env .cookies job [] rest
  else
    rest job []

/-- The ordered strategy chain attempted by `download_audio`. -/
def strategyChain (env : DlEnv) : List Strategy :=
  (if truthy env.youtube_cookies then [Strategy.cookies] else []) ++
    [.android_creator, .web_embedded, .mobile_web, .ios_music, .android_basic]

/-- Model of `load_models` (app.py lines 29-47): raises `ValueError` when either API key
is missing or empty. -/
def load_models (openai_key gemini_key : Option String) : Except PyErr Unit :=
  if !truthy openai_key then
    .error (.valueError "OPENAI_API_KEY not found in environment variables. Please set it in the .env file.")
  else if !truthy gemini_key then
    .error (.valueError "GEMINI_API_KEY not found in environment variables. Please set it in the .env file.")
  else .ok ()

/-- Model of `transcribe_audio` (app.py lines 223-255).  The Whisper call's outcome is
the parameter `outcome` (the SRT text on success); on failure the stage records
the error with the "Translation error: " prefix and re-raises.  The SRT file
write is modelled by the `srt_file` field update. -/
def transcribe_audio (outcome : Except PyErr String) (safe_title : String)
    (job : Job) : Except PyErr (String × String) × Job :=
  let job := { job with status := "Translating audio to English...", progress := 60 }
  match outcome with
  | .error e => (.error e, { job with error := some ("Translation error: " ++ e.msgStr) })
  | .ok response =>
    let job := { job with progress := 80 }
    let srt_file := "/Users/amanattar/Developer/youtube_CC/" ++ safe_title ++ ".srt"
    (.ok (srt_file, response), { job with srt_file := srt_file })

/-- Python `str.replace` on character lists: all non-overlapping occurrences,
left to right (only ever used here with the nonempty pattern ".srt"). -/
def replace_chars (pat repl : List Char) : List Char → List Char
  | [] => []
  | c :: rest =>
    if h : pat ≠ [] ∧ pat.isPrefixOf (c :: rest) then
      repl ++ replace_chars pat repl ((c :: rest).drop pat.length)
    else
      c :: replace_chars pat repl rest
termination_by l => l.length
decreasing_by
  · have := List.length_pos.mpr h.1
    simp only [List.length_drop, List.length_cons]
    omega
  · simp

/-- Python `s.replace(pat, repl)` (all occurrences). -/
def py_replace (s pat repl : String) : String :=
  ⟨replace_chars pat.data repl.data s.data⟩
/-- Text of the marathi prompt template before the embedded transcript, from get_channel_prompt in app.py. -/
def marathi_tpl_before : String :=
  "<Task>\nYou are a YouTube video assistant. Based on the following .srt subtitles file, generate a Marathi YouTube video description in Trakin Tech style.\nYour output should include:\nA one-line hook in Marathi introducing the video (casual, engaging tone).\nA short Marathi description summarizing the video.\nSEO-optimized hashtags from product name, series, and video theme.\nBuy/product links (if found in transcript, else add a placeholder link).\nDisclaimer if mentioned.\nChapter titles with timestamps (auto-extracted from SRT).\nSocial Media Handles section in Marathi.\nFollow this formatting example:\nà¤¹à¥à¤¯à¤¾ video à¤®à¤§à¥à¤¯à¥‡ à¤†à¤ªà¤£ iPhone 17 à¤šà¤‚ unboxing à¤†à¤£à¤¿ Quick Review à¤˜à¥‡à¤£à¤¾à¤° à¤†à¤¹à¥‹à¤¤. Apple à¤¨à¥‡ à¤¯à¤¾à¤µà¥‡à¤³à¥€ base iPhone 17 à¤®à¤§à¥à¤¯à¥‡ mast à¤…à¤ªà¤—à¥à¤°à¥‡à¤¡à¥à¤¸ à¤¦à¤¿à¤²à¥‡à¤¤, 120Hz display, powerful performance à¤†à¤£à¤¿ upgraded camera setup. à¤¹à¤¾ iPhone à¤–à¤°à¤‚à¤š à¤µà¤°à¥à¤¥ à¤†à¤¹à¥‡ à¤•à¤¾ à¤¹à¥‡ detail à¤®à¤§à¥à¤¯à¥‡ à¤¯à¤¾ video à¤®à¤§à¥à¤¯à¥‡ à¤ªà¤¾à¤¹à¥‚à¤¯à¤¾!\n\nBuy iPhone 17 here: `https://fktr.in/4P86gPb`\n\n#iPhone17 #iPhone17Unboxing #TrakinTechMarathi\n\nHighlights\n0:00 Introduction\n0:41 Unboxing\n1:04 Design, In-Hand Feel & Build\n2:32 Ports & Buttons\n3:06 Display Upgrade\n3:27 Performance & Gaming\n3:48 Battery & Charging\n4:19 Connectivity & Other Features\n4:52 Camera Setup\n5:38 Selfie Camera\n6:16 My Opinion: iPhone 17 vs iPhone 16 Pro\n7:15 Made in India!\n7:34 What\x27s Next?\n\nSocial Media Handles\nFollow us on:\nWeb: `http://trak.in`\nInstagram: `https://www.instagram.com/trakintech`\nTwitter: `https://www.twitter.com/trakintech`\nTwitter personal: `https://www.twitter.com/8ap`\nFacebook: `https://www.facebook.com/trakintech`\nFor enquiries or product promotions get in touch with us on Youtube@trak.in\n</Task>\n\n<Inputs>\n<Transcript>\n"

/-- Text of the marathi prompt template after the embedded transcript, from get_channel_prompt in app.py. -/
def marathi_tpl_after : String :=
  "\n</Transcript>\n</Inputs>\n\n<Instructions>\nParse the SRT to detect video flow and topics.\nUse Marathi casual YouTube tone.\nBuild chapter highlights with exact timestamps.\nSummarize overall video in 3â€“4 lines.\nAdd SEO-rich hashtags at the bottom.\nInclude social handles and links in the given format.\nOutput everything inside <video_description> tags.\n</Instructions>"

/-- Text of the tamil prompt template before the embedded transcript, from get_channel_prompt in app.py. -/
def tamil_tpl_before : String :=
  "<Task>\nYou are a YouTube video content assistant. Based on the provided `.srt` transcript, generate a Tamil YouTube video description in Trakin Tech style.\n\nYour output should include:\n1. A one-line Tamil hook introducing the video.\n2. A short Tamil summary encouraging viewers to watch, like, and share.\n3. Disclaimer if the device was provided by a brand.\n4. Product or camera sample links (if mentioned in transcript, else use placeholders).\n5. SEO-optimized Tamil + English hashtags.\n6. Timestamp-based chapter titles (auto-detected from the SRT).\n7. \"Subscribe to our channels\" section with the links.\n8. Format everything exactly like a YouTube description block.\n\nHere\x27s the reference format to follow:\n\n---\nà®‡à®¨à¯à®¤ à®µà¯€à®Ÿà®¿à®¯à¯‹à®µà®¿à®²à¯, Legacy à®ªà®¿à®°à®¾à®£à¯à®Ÿà¯à®•à®³à®¿à®©à¯ à®šà®¨à¯à®¤à¯ˆà®¯à®¿à®²à¯ à®šà®¿à®±à®¨à¯à®¤ Compact à®ƒà®ªà®¿à®³à®¾à®•à¯à®·à®¿à®ªà¯à®•à®³à¯ˆ à®’à®ªà¯à®ªà®¿à®Ÿà¯à®Ÿà¯à®ªà¯ à®ªà®¾à®°à¯à®¤à¯à®¤à¯‹à®®à¯! iPhone 17 vs Pixel 10 vs Galaxy S25. à®¨à¯€à®™à¯à®•à®³à¯ à®µà®¾à®™à¯à®•à®•à¯à®•à¯‚à®Ÿà®¿à®¯ à®šà®¿à®±à®¨à¯à®¤ à®•à®¾à®®à¯à®ªà®¾à®•à¯à®Ÿà¯ à®ƒà®ªà®¿à®³à®¾à®•à¯à®·à®¿à®ªà¯ à®à®¤à¯ à®à®©à¯à®ªà®¤à¯ˆ à®‡à®¨à¯à®¤ à®µà¯€à®Ÿà®¿à®¯à¯‹à®µà®¿à®²à®¿à®°à¯à®¨à¯à®¤à¯ à®•à®£à¯à®Ÿà¯à®ªà®¿à®Ÿà®¿à®•à¯à®•à®µà¯à®®à¯.\n\nà®‡à®¨à¯à®¤ à®®à®¤à®¿à®ªà¯à®ªà®¾à®¯à¯à®µà¯ Phone, Brand-à®†à®²à¯ à®µà®´à®™à¯à®•à®ªà¯à®ªà®Ÿà¯à®Ÿà¯à®³à¯à®³à®¤à¯. à®‡à®°à¯à®ªà¯à®ªà®¿à®©à¯à®®à¯, à®µà¯€à®Ÿà®¿à®¯à¯‹à®µà®¿à®²à¯ à®‰à®³à¯à®³ à®•à®°à¯à®¤à¯à®¤à¯à®•à®³à¯ à®®à¯à®±à¯à®±à®¿à®²à¯à®®à¯ à®à®©à®¤à¯ à®¤à®©à®¿à®ªà¯à®ªà®Ÿà¯à®Ÿ à®ªà®¯à®©à¯à®ªà®¾à®Ÿà¯à®Ÿà¯ˆ à®…à®Ÿà®¿à®ªà¯à®ªà®Ÿà¯ˆà®¯à®¾à®•à®•à¯ à®•à¯Šà®£à¯à®Ÿà®µà¯ˆ.\n\nCheckout the Camera Samples: `https://bit.ly/46WAT9Z`\n\n#Pixel10 #iPhone17 #GalaxyS25\n\n=============================\n00:00 Introduction\n00:58 Design\n03:12 Display\n04:48 Performance\n08:31 Camera\n11:12 Software\n13:00 Conclusion\n===============================\n\nSubscribe to our other channels:\nTrakin Tech  - `https://www.youtube.com/c/TrakinTech`\nTrakin Tech English - `https://www.youtube.com/c/TrakinTechEnglish`\nTrakin Tech Marathi - `https://www.youtube.com/c/TrakinTechMarathi`\nTrakin Auto - `https://www.youtube.com/c/TrakinAuto`\n---\n</Task>\n\n<Inputs>\n<Transcript>\n"

/-- Text of the tamil prompt template after the embedded transcript, from get_channel_prompt in app.py. -/
def tamil_tpl_after : String :=
  "\n</Transcript>\n</Inputs>\n\n<Instructions>\n- Analyze the SRT transcript to detect the main sections of the video.\n- Use casual Tamil tone with some English tech words (like performance, display, etc.).\n- Generate an engaging SEO-optimized description in Tamil.\n- Extract timestamps as chapter titles from the SRT file.\n- Add hashtags based on product names and brands.\n- Include disclaimers, links, and subscribe section as shown in the template.\n- Output everything inside <video_description> tags.\n</Instructions>"

/-- Text of the default prompt template before the embedded transcript, from get_channel_prompt in app.py. -/
def default_tpl_before : String :=
  "You are a professional YouTube content creator for the Trakin Tech channel. Generate a complete YouTube video description in Hindi based on the provided transcript.\n\nYour output should include:\n- A one-line Hindi hook at the top describing the video.\n- A short summary in Hindi encouraging users to watch, like, and share.\n- SEO-friendly hashtags relevant to the video content.\n- Camera samples / product links (if mentioned in the transcript, otherwise use dummy placeholders).\n- A disclaimer in Hindi if the video is brand-sponsored (as indicated in the transcript).\n- Promotional links (for music, Telegram, etc.) using the TrakinTech style.\n- A standard block of social media handles.\n- Auto-extracted chapter titles with timestamps based on the key topics discussed in the transcript. The chapter titles should be descriptive and in the specific format requested by the user.\n\nUse this example as a reference for the overall output formatting, including the use of asterisks and headers:\n\nDoston Aaj Hum Unbox Kar Rahe Hain All New iPhone Air Ko, To Aap Ye Video Ant Tak Dekhiye Aur Video Ko Like Aur Share Karna Na Bhoole.\n\n#iPhoneAir #iPhone17Series #iPhoneAirUnboxing #TrakinTech\n\nCheck Out iPhone Air : `https://fkart.openinapp.co/r81su`\n\nThe Device shown in the video has been provided by respective brand. However, opinion mentioned in this video is completely personal and based on my usage only.\n\n\"Safar - The 10 Million Rap\"\nStreaming On All Platforms Listen or Set Your Callertune Enjoy & Stay Connected With Us !\nâ™« ğ‰ğ¢ğ¨ ğ’ğšğšğ¯ğ§ - `https://bit.ly/3iWUfm4`\nâ™« ğ†ğšğšğ§ğš - `https://bit.ly/2YHUdaY`\nâ™« ğ€ğ©ğ©ğ¥ğ ğŒğ®ğ¬ğ¢ğœ - `https://apple.co/3mQfwPy`\nâ™« ğ’ğ©ğ¨ğ­ğ¢ğŸğ² - `https://spoti.fi/3oY1bmA`\nâ™« ğ˜ğ¨ğ®ğ­ğ®ğ›ğ ğŒğ®ğ¬ğ¢ğœ - `https://bit.ly/3Ax2yuF`\nâ™« ğ€ğ¦ğšğ³ğ¨ğ§ ğŒğ®ğ¬ğ¢ğœ - `https://amzn.to/3veYSgk`\n\nOfficial TrakinTech Telegram Channel - `https://t.me/officialtrakintech`\n\nVideo Highlights\n00:00 Introduction\n00:35 Alienware Aurora 16 & 16X Unboxing\n01:43 Alienware Aurora 16 & 16X Design\n02:05 Alienware Aurora 16 & 16X Ports\n03:29 Alienware Aurora 16 & 16X Dislpay\n04:25 Alienware Aurora 16 & 16X Specifications\n05:52 Alienware Aurora 16 & 16X Multimedia\n06:19 Alienware Aurora 16 & 16X Battery\n07:02 Alienware Aurora 16 & 16X Software\n07:50 Alienware Aurora 16 & 16X Performance\n09:04 Alienware Aurora 16 & 16X Connectivity\n09:45 Alienware Aurora 16 & 16X Price\n\nSocial Media Handles\nFollow us on:\nWeb: `http://trak.in`\nTelegram : `https://t.me/officialtrakintech`\nInstagram: `https://instagram.com/trakintech`\nTwitter: `https://twitter.com/trakintech`\nTwitter personal: `https://twitter.com/8ap`\nFacebook: `https://www.facebook.com/TrakinTech`\nEnglish Trakin Tech YouTube Channel - `https://www.youtube.com/c/TrakinTechEnglish`\n\n<Task>\nAnalyze the provided transcript and generate the complete YouTube description as specified.\n</Task>\n\n<Inputs>\n<Transcript>\n"

/-- Text of the default prompt template after the embedded transcript, from get_channel_prompt in app.py. -/
def default_tpl_after : String :=
  "\n</Transcript>\n</Inputs>\n\n<Instructions>\nCarefully analyze the transcript to identify all major topic changes for chapter creation.\nMap the identified topics to their exact start times to create accurate timestamps.\nEnsure the chapter titles are descriptive, as shown in the example format (e.g., \"Alienware Aurora 16 & 16X Design\").\nMaintain a casual, conversational Hindi tone throughout the description.\nUse dummy links for products and promotions if not mentioned in the text.\nWrap the final, complete output inside <video_description> tags.\n</Instructions>"
/-- Model of `get_channel_prompt` (app.py lines 302-498): channel-keyed f-string
templates with the transcript embedded verbatim; any other channel value falls
through to the default (trakin_tech) template. -/
def get_channel_prompt (channel srt_content : String) : String :=
  if channel = "trakin_tech_marathi" then
    marathi_tpl_before ++ srt_content ++ marathi_tpl_after
  else if channel = "trakin_tech_tamil" then
    tamil_tpl_before ++ srt_content ++ tamil_tpl_after
  else
    default_tpl_before ++ srt_content ++ default_tpl_after

/-- The default (trakin_tech) prompt with the transcript embedded. -/
def default_prompt (srt_content : String) : String :=
  default_tpl_before ++ srt_content ++ default_tpl_after

/-- Result of `generate_description`: the raised exception or
`(description_file, response_text)`, the mutated job record, and whether the
generative backend was invoked. -/
structure GenResult where
  result : Except PyErr (String × String)
  job : Job
  backendCalled : Bool

/-- Model of `generate_description` (app.py lines 500-559).  The SRT file read is
modelled by passing the file's content (`srt_content`); the Gemini stream's
outcome is `gen prompt`.  Content shorter than 50 characters after `strip()`
raises `ValueError` before any backend call; every exception in the stage is
recorded with the "Description generation error: " prefix and re-raised. -/
def generate_description (gen : String → Except PyErr String)
    (srt_file srt_content : String) (job : Job) : GenResult :=
  let job := { job with status := "Generating description...", progress := 90 }
  let channel := job.channel
  if (py_strip srt_content).length < 50 then
    let e : PyErr := .valueError ("SRT content is too short (" ++
      toString srt_content.length ++ " chars). File may be empty or corrupted.")
    { result := .error e,
      job := { job with error := some ("Description generation error: " ++ e.msgStr) },
      backendCalled := false }
  else
    let prompt := get_channel_prompt channel srt_content
    match gen prompt with
    | .error e =>
      { result := .error e,
        job := { job with error := some ("Description generation error: " ++ e.msgStr) },
        backendCalled := true }
    | .ok response_text =>
      let description_file := py_replace srt_file ".srt" "_description.txt"
      let job := { job with description_file := description_file, progress := 100, status := "Completed!" }
      { result := .ok (description_file, response_text),
        job := job,
        backendCalled := true }

/-- Environment of one background job: the API keys, the download environment,
and the outcomes of the transcription and generation backends. -/
structure PipelineEnv where
  openai_key : Option String
  gemini_key : Option String
  dl : DlEnv
  transcription : Except PyErr String
  generation : String → Except PyErr String

/-- Result of `process_video_background`: the final job record and the files
the orchestrator removed. -/
structure BgResult where
  job : Job
  removed : List String

/-- The two `except` clauses of `process_video_background` (app.py lines
623-629): any `ValueError` is recorded as a configuration error with a
dedicated status; every other exception is recorded verbatim with status
"Error occurred". -/
def handle_background_error (e : PyErr) (job : Job) : BgResult :=
  match e with
  | .valueError m =>
    let job := { job with error := some ("Configuration error: " ++ m), status := "Configuration error - check API keys" }
    { job := job, removed := [] }
  | .otherError m =>
    let job := { job with error := some m, status := "Error occurred" }
    { job := job, removed := [] }

/-- Model of `process_video_background` (app.py lines 605-629): load models, download,
transcribe, generate; only after all three stages succeed is the audio file
deleted (when it exists).  The content handed to `generate_description` is the
transcription response, which `transcribe_audio` wrote to the SRT file. -/
def process_video_background (env : PipelineEnv) (job : Job) : BgResult :=
  match load_models env.openai_key env.gemini_key with
  | .error e => handle_background_error e job
  | .ok _ =>
    let dl := download_audio env.dl job
    match dl.result with
    | .error e => handle_background_error e dl.job
    | .ok av =>
      let tr := transcribe_audio env.transcription av.2 dl.job
      match tr.1 with
      | .error e => handle_background_error e tr.2
      | .ok sr =>
        let gen := generate_description env.generation sr.1 sr.2 tr.2
        match gen.result with
        | .error e => handle_background_error e gen.job
        | .ok _ =>
          { job := gen.job,
            removed := if env.dl.fsExists av.1 then [av.1] else [] }

/-- The JSON body returned by `get_progress`: either the job record or the
`Session not found` error object. -/
inductive ProgressView where
  | record (j : Job)
  | errorBody (msg : String)
deriving Repr, DecidableEq

/-- Model of `get_progress` (app.py lines 631-633):
`jsonify(progress_data.get(session_id, {'error': 'Session not found'}))`. -/
def get_progress (store : String → Option Job) (session_id : String) : ProgressView :=
  match store session_id with
  | some j => .record j
  | none => .errorBody "Session not found"

/-- The JSON-decoded request body of `POST /process`. -/
structure ProcessBody where
  url : Option String
  channel : Option String

/-- Response of `POST /process`. -/
inductive ProcessResp where
  | ok (session_id : String)
  | badRequest (errMsg : String)
deriving Repr, DecidableEq

/-- Side effects performed by `process_video`, in source order: initialising
the session record in `progress_data`, then starting the background thread. -/
inductive HEvent where
  | initRecord (session_id : String) (record : Job)
  | startThread (session_id : String) (url : String)
deriving Repr, DecidableEq

/-- Model of `process_video` (app.py lines 567-603): validate the body, derive the
session id from the clock second (`str(int(time.time()))`, with `now` the
truncated epoch second), initialise the record, then start the background
thread. -/
def process_video (now : Nat) (body : ProcessBody) : ProcessResp × List HEvent :=
  if !truthy body.url then (.badRequest "No URL provided", [])
  else if !truthy body.channel then (.badRequest "No channel selected", [])
  else
    let session_id := toString now
    let record := initJob (body.channel.getD "")
    (.ok session_id,
     [.initRecord session_id record, .startThread session_id (body.url.getD "")])

/-- Effect of one `process_video` event on the session store. -/
def applyEvent (store : String → Option Job) : HEvent → (String → Option Job)
  | .initRecord sid record => fun k => if k = sid then some record else store k
  | .startThread _ _ => store

/-- Apply a list of events to the session store, in order. -/
def applyEvents (store : String → Option Job) (evs : List HEvent) : String → Option Job :=
  evs.foldl applyEvent store

theorem attempt_download_fst (fsExists : String → Bool) (b : StrategyBehavior)
    (name : String) (job : Job) :
    (attempt_download fsExists b name job).1 = attemptOutcome fsExists b := by
  unfold attempt_download attemptOutcome
  cases hx : b.extract with
  | error e => rfl
  | ok title =>
    cases hd : b.download with
    | some e => rfl
    | none =>
      by_cases hf : fsExists (find_audio_file fsExists (sanitize_title title)) <;>
        simp [hf]

theorem attempt_download_strategy_of_ok {fsExists : String → Bool}
    {b : StrategyBehavior} {v : String × String}
    (h : attemptOutcome fsExists b = .ok v) (name : String) (job : Job) :
    ((attempt_download fsExists b name job).2).strategy = some name := by
  unfold attemptOutcome at h
  unfold attempt_download
  cases hx : b.extract with
  | error e => simp [hx] at h
  | ok title =>
    simp only [hx] at h ⊢
    cases hd : b.download with
    | some e => simp [hd] at h
    | none =>
      simp only [hd] at h ⊢
      by_cases hf : fsExists (find_audio_file fsExists (sanitize_title title))
      · simp [if_pos hf]
      · simp [if_neg hf] at h

theorem try_strategy_error {env : DlEnv} {s : Strategy} {e : PyErr}
    (h : attemptOutcome env.fsExists (env.behavior s) = .error e)
    (job : Job) (att : List Strategy) (next : Job → List Strategy → DlResult) :
    try_strategy env s job att next =
      next (attempt_download env.fsExists (env.behavior s) (strategy_label s) job).2
        (att ++ [s]) := by
  simp only [try_strategy, attempt_download_fst, h]

theorem try_strategy_ok {env : DlEnv} {s : Strategy} {v : String × String}
    (h : attemptOutcome env.fsExists (env.behavior s) = .ok v)
    (job : Job) (att : List Strategy) (next : Job → List Strategy → DlResult) :
    try_strategy env s job att next =
      { result := .ok v,
        job := (attempt_download env.fsExists (env.behavior s) (strategy_label s) job).2,
        attempts := att ++ [s] } := by
  simp only [try_strategy, attempt_download_fst, h]

theorem final_strategy_error {env : DlEnv} {e : PyErr}
    (h : attemptOutcome env.fsExists (env.behavior .android_basic) = .error e)
    (job : Job) (att : List Strategy) :
    final_strategy env job att =
      { result := .error e,
        job := { (attempt_download env.fsExists (env.behavior .android_basic)
                    (strategy_label .android_basic) job).2 with
                 error := some ("All download strategies failed: " ++ e.msgStr) },
        attempts := att ++ [Strategy.android_basic] } := by
  simp only [final_strategy, attempt_download_fst, h]

theorem final_strategy_ok {env : DlEnv} {v : String × String}
    (h : attemptOutcome env.fsExists (env.behavior .android_basic) = .ok v)
    (job : Job) (att : List Strategy) :
    final_strategy env job att =
      { result := .ok v,
        job := (attempt_download env.fsExists (env.behavior .android_basic)
                  (strategy_label .android_basic) job).2,
        attempts := att ++ [Strategy.android_basic] } := by
  simp only [final_strategy, attempt_download_fst, h]

/-- C1: when the cookies strategy is configured and every strategy in the chain
fails, `download_audio` attempts each of the six strategies exactly once, in the
fixed source order, records "All download strategies failed: ..." in the job
record, and raises a single failure carrying the last underlying error (the one
from the final `android_basic` attempt). -/
theorem download_audio_all_fail (env : DlEnv) (job : Job)
    (hc : truthy env.youtube_cookies = true)
    (hfail : ∀ s : Strategy, ∃ e : PyErr,
      attemptOutcome env.fsExists (env.behavior s) = .error e) :
    ∃ e : PyErr,
      attemptOutcome env.fsExists (env.behavior .android_basic) = .error e ∧
      (download_audio env job).result = .error e ∧
      (download_audio env job).job.error =
        some ("All download strategies failed: " ++ e.msgStr) ∧
      (download_audio env job).attempts =
        [Strategy.cookies, .android_creator, .web_embedded, .mobile_web,
         .ios_music, .android_basic] := by
  obtain ⟨e1, h1⟩ := hfail .cookies
  obtain ⟨e2, h2⟩ := hfail .android_creator
  obtain ⟨e3, h3⟩ := hfail .web_embedded
  obtain ⟨e4, h4⟩ := hfail .mobile_web
  obtain ⟨e5, h5⟩ := hfail .ios_music
  obtain ⟨e6, h6⟩ := hfail .android_basic
  refine ⟨e6, h6, ?_⟩
  simp only [download_audio, hc, if_true, try_strategy_error h1,
    try_strategy_error h2, try_strategy_error h3, try_strategy_error h4,
    try_strategy_error h5, final_strategy_error h6]
  simp

/-- C1 witness: a concrete environment where all six strategies fail. -/
def dlenvC1 : DlEnv :=
  { youtube_cookies := some "cookiedata",
    fsExists := fun _ => false,
    behavior := fun _ =>
      { extract := .error (.otherError "HTTP Error 403: Forbidden"),
        download := none } }

/-- C1 witness: the all-fail theorem applied at a concrete environment. -/
theorem download_audio_all_fail_witness :
    ∃ e : PyErr,
      attemptOutcome dlenvC1.fsExists (dlenvC1.behavior .android_basic) = .error e ∧
      (download_audio dlenvC1 (initJob "trakin_tech")).result = .error e ∧
      (download_audio dlenvC1 (initJob "trakin_tech")).job.error =
        some ("All download strategies failed: " ++ e.msgStr) ∧
      (download_audio dlenvC1 (initJob "trakin_tech")).attempts =
        [Strategy.cookies, .android_creator, .web_embedded, .mobile_web,
         .ios_music, .android_basic] :=
  download_audio_all_fail dlenvC1 (initJob "trakin_tech") (by decide)
    (fun _ => ⟨.otherError "HTTP Error 403: Forbidden", rfl⟩)

/-- C2: if every strategy among the first `k` of the chain fails and strategy
`k + 1` (index `k`) succeeds, `download_audio` returns that strategy's result,
the job record's `strategy` field ends up holding that strategy's name, and the
attempted strategies are exactly the first `k + 1` of the chain, in order (no
later strategy is ever attempted). -/
theorem download_audio_first_success (env : DlEnv) (job : Job) (k : Nat)
    (sk : Strategy) (v : String × String)
    (hk : (strategyChain env).get? k = some sk)
    (hfail : ∀ s ∈ (strategyChain env).take k, ∃ e : PyErr,
      attemptOutcome env.fsExists (env.behavior s) = .error e)
    (hsucc : attemptOutcome env.fsExists (env.behavior sk) = .ok v) :
    (download_audio env job).result = .ok v ∧
    (download_audio env job).attempts = (strategyChain env).take (k + 1) ∧
    (download_audio env job).job.strategy = some (strategy_label sk) := by
  cases hc : truthy env.youtube_cookies with
  | true =>
    simp only [strategyChain, hc, if_true, List.cons_append, List.nil_append]
      at hk hfail ⊢
    rcases k with _ | _ | _ | _ | _ | _ | k
    · simp only [List.get?_cons_zero, Option.some.injEq] at hk
      subst hk
      refine ⟨?_, ?_, ?_⟩ <;>
        simp [download_audio, hc, try_strategy_ok hsucc,
          attempt_download_strategy_of_ok hsucc]
    · simp only [List.get?_cons_succ, List.get?_cons_zero, Option.some.injEq] at hk
      subst hk
      obtain ⟨e1, h1⟩ := hfail .cookies (by decide)
      refine ⟨?_, ?_, ?_⟩ <;>
        simp [download_audio, hc, try_strategy_error h1, try_strategy_ok hsucc,
          attempt_download_strategy_of_ok hsucc]
    · simp only [List.get?_cons_succ, List.get?_cons_zero, Option.some.injEq] at hk
      subst hk
      obtain ⟨e1, h1⟩ := hfail .cookies (by decide)
      obtain ⟨e2, h2⟩ := hfail .android_creator (by decide)
      refine ⟨?_, ?_, ?_⟩ <;>
        simp [download_audio, hc, try_strategy_error h1, try_strategy_error h2,
          try_strategy_ok hsucc, attempt_download_strategy_of_ok hsucc]
    · simp only [List.get?_cons_succ, List.get?_cons_zero, Option.some.injEq] at hk
      subst hk
      obtain ⟨e1, h1⟩ := hfail .cookies (by decide)
      obtain ⟨e2, h2⟩ := hfail .android_creator (by decide)
      obtain ⟨e3, h3⟩ := hfail .web_embedded (by decide)
      refine ⟨?_, ?_, ?_⟩ <;>
        simp [download_audio, hc, try_strategy_error h1, try_strategy_error h2,
          try_strategy_error h3, try_strategy_ok hsucc,
          attempt_download_strategy_of_ok hsucc]
    · simp only [List.get?_cons_succ, List.get?_cons_zero, Option.some.injEq] at hk
      subst hk
      obtain ⟨e1, h1⟩ := hfail .cookies (by decide)
      obtain ⟨e2, h2⟩ := hfail .android_creator (by decide)
      obtain ⟨e3, h3⟩ := hfail .web_embedded (by decide)
      obtain ⟨e4, h4⟩ := hfail .mobile_web (by decide)
      refine ⟨?_, ?_, ?_⟩ <;>
        simp [download_audio, hc, try_strategy_error h1, try_strategy_error h2,
          try_strategy_error h3, try_strategy_error h4, try_strategy_ok hsucc,
          attempt_download_strategy_of_ok hsucc]
    · simp only [List.get?_cons_succ, List.get?_cons_zero, Option.some.injEq] at hk
      subst hk
      obtain ⟨e1, h1⟩ := hfail .cookies (by decide)
      obtain ⟨e2, h2⟩ := hfail .android_creator (by decide)
      obtain ⟨e3, h3⟩ := hfail .web_embedded (by decide)
      obtain ⟨e4, h4⟩ := hfail .mobile_web (by decide)
      obtain ⟨e5, h5⟩ := hfail .ios_music (by decide)
      refine ⟨?_, ?_, ?_⟩ <;>
        simp [download_audio, hc, try_strategy_error h1, try_strategy_error h2,
          try_strategy_error h3, try_strategy_error h4, try_strategy_error h5,
          final_strategy_ok hsucc, attempt_download_strategy_of_ok hsucc]
    · simp only [List.get?_cons_succ, List.get?_nil] at hk
      exact Option.noConfusion hk
  | false =>
    simp only [strategyChain, hc, Bool.false_eq_true, if_false,
      List.nil_append] at hk hfail ⊢
    rcases k with _ | _ | _ | _ | _ | k
    · simp only [List.get?_cons_zero, Option.some.injEq] at hk
      subst hk
      refine ⟨?_, ?_, ?_⟩ <;>
        simp [download_audio, hc, try_strategy_ok hsucc,
          attempt_download_strategy_of_ok hsucc]
    · simp only [List.get?_cons_succ, List.get?_cons_zero, Option.some.injEq] at hk
      subst hk
      obtain ⟨e2, h2⟩ := hfail .android_creator (by decide)
      refine ⟨?_, ?_, ?_⟩ <;>
        simp [download_audio, hc, try_strategy_error h2, try_strategy_ok hsucc,
          attempt_download_strategy_of_ok hsucc]
    · simp only [List.get?_cons_succ, List.get?_cons_zero, Option.some.injEq] at hk
      subst hk
      obtain ⟨e2, h2⟩ := hfail .android_creator (by decide)
      obtain ⟨e3, h3⟩ := hfail .web_embedded (by decide)
      refine ⟨?_, ?_, ?_⟩ <;>
        simp [download_audio, hc, try_strategy_error h2, try_strategy_error h3,
          try_strategy_ok hsucc, attempt_download_strategy_of_ok hsucc]
    · simp only [List.get?_cons_succ, List.get?_cons_zero, Option.some.injEq] at hk
      subst hk
      obtain ⟨e2, h2⟩ := hfail .android_creator (by decide)
      obtain ⟨e3, h3⟩ := hfail .web_embedded (by decide)
      obtain ⟨e4, h4⟩ := hfail .mobile_web (by decide)
      refine ⟨?_, ?_, ?_⟩ <;>
        simp [download_audio, hc, try_strategy_error h2, try_strategy_error h3,
          try_strategy_error h4, try_strategy_ok hsucc,
          attempt_download_strategy_of_ok hsucc]
    · simp only [List.get?_cons_succ, List.get?_cons_zero, Option.some.injEq] at hk
      subst hk
      obtain ⟨e2, h2⟩ := hfail .android_creator (by decide)
      obtain ⟨e3, h3⟩ := hfail .web_embedded (by decide)
      obtain ⟨e4, h4⟩ := hfail .mobile_web (by decide)
      obtain ⟨e5, h5⟩ := hfail .ios_music (by decide)
      refine ⟨?_, ?_, ?_⟩ <;>
        simp [download_audio, hc, try_strategy_error h2, try_strategy_error h3,
          try_strategy_error h4, try_strategy_error h5, final_strategy_ok hsucc,
          attempt_download_strategy_of_ok hsucc]
    · simp only [List.get?_cons_succ, List.get?_nil] at hk
      exact Option.noConfusion hk

/-- C2 witness environment: cookies configured but failing, android_creator
succeeding. -/
def dlenvC2 : DlEnv :=
  { youtube_cookies := some "cookiedata",
    fsExists := fun f => f = "My Video.m4a",
    behavior := fun s =>
      match s with
      | .cookies =>
        { extract := .error (.otherError "Sign in to confirm you are not a bot"),
          download := none }
      | _ => { extract := .ok "My Video", download := none } }

/-- C2 witness: with the first strategy failing and the second succeeding,
`download_audio` returns the second strategy's result, attempts exactly the
first two strategies, and records `android_creator` as the strategy used. -/
theorem download_audio_first_success_witness :
    (download_audio dlenvC2 (initJob "trakin_tech")).result =
      .ok ("My Video.m4a", "My Video") ∧
    (download_audio dlenvC2 (initJob "trakin_tech")).attempts =
      (strategyChain dlenvC2).take 2 ∧
    (download_audio dlenvC2 (initJob "trakin_tech")).job.strategy =
      some (strategy_label .android_creator) :=
  download_audio_first_success dlenvC2 (initJob "trakin_tech") 1 .android_creator
    ("My Video.m4a", "My Video") (by decide)
    (by
      intro s hs
      cases s with
      | cookies => exact ⟨.otherError "Sign in to confirm you are not a bot", rfl⟩
      | android_creator => exact absurd hs (by decide)
      | web_embedded => exact absurd hs (by decide)
      | mobile_web => exact absurd hs (by decide)
      | ios_music => exact absurd hs (by decide)
      | android_basic => exact absurd hs (by decide))
    rfl

/-- C7: every channel selector other than the two known non-default ones
(including the empty or unset selector) gets the default trakin_tech template
with the subtitle text embedded; `get_channel_prompt` is a total function, so
it never fails. -/
theorem get_channel_prompt_fallback (channel srt_content : String)
    (h1 : channel ≠ "trakin_tech_marathi") (h2 : channel ≠ "trakin_tech_tamil") :
    get_channel_prompt channel srt_content = default_prompt srt_content := by
  simp [get_channel_prompt, default_prompt, h1, h2]

/-- C7 witness: the empty selector falls back to the default template. -/
theorem get_channel_prompt_fallback_witness :
    get_channel_prompt "" "hello transcript" = default_prompt "hello transcript" :=
  get_channel_prompt_fallback "" "hello transcript" (by decide) (by decide)

theorem reverse_dropWhile_reverse_sublist (p : Char → Bool) (l : List Char) :
    ((l.reverse.dropWhile p).reverse).Sublist l := by
  have h := List.dropWhile_sublist (l := l.reverse) (p := p)
  simpa using h.reverse

theorem strip_trailing_sublist (l : List Char) : (strip_trailing l).Sublist l :=
  reverse_dropWhile_reverse_sublist is_py_whitespace l

/-- C8: for every interpretation of Python's Unicode `str.isalnum` and of the
whitespace class stripped by `str.rstrip` (both external lookup tables — in
particular the real Unicode tables the program uses), the filename sanitisation
agrees with the spec-modelled transform (keep exactly the alphanumeric, space,
hyphen and underscore characters; trim trailing whitespace), its output is a
subsequence of the input title (original order preserved), and every kept
character is in the allowed class.  A pure function of the title, hence
deterministic. -/
theorem sanitize_title_spec (isalnum isspace : Char → Bool) (title : String) :
    sanitize_title_with isalnum isspace title =
      spec_sanitize_title isalnum isspace title ∧
    (sanitize_title_with isalnum isspace title).data.Sublist title.data ∧
    ∀ c ∈ (sanitize_title_with isalnum isspace title).data,
      keeps_title_char isalnum c = true := by
  refine ⟨?_, ?_, ?_⟩
  · have hp : ∀ c : Char,
        keeps_title_char isalnum c = (isalnum c || decide (c ∈ [' ', '-', '_'])) := by
      intro c
      simp [keeps_title_char, Bool.or_assoc]
    unfold sanitize_title_with spec_sanitize_title
    rw [List.filter_congr (fun c _ => hp c)]
  · exact (reverse_dropWhile_reverse_sublist _ _).trans (List.filter_sublist _)
  · intro c hc
    have hmem := (reverse_dropWhile_reverse_sublist isspace
      (title.data.filter (keeps_title_char isalnum))).subset hc
    exact List.of_mem_filter hmem

/-- C9: polling an unknown session id yields the Session-not-found error body,
and a known session id yields that session's job record; `get_progress` is a
total function of the store and the id, so it never throws. -/
theorem get_progress_spec (store : String → Option Job) (session_id : String) :
    (store session_id = none →
      get_progress store session_id = .errorBody "Session not found") ∧
    (∀ j : Job, store session_id = some j →
      get_progress store session_id = .record j) := by
  constructor
  · intro h
    simp [get_progress, h]
  · intro j h
    simp [get_progress, h]

/-- C9 witness store with a single known session. -/
def storeC9 : String → Option Job :=
  fun sid => if sid = "1700000000" then some (initJob "trakin_tech") else none

/-- C9 witness: a missing and a present session id, via the theorem. -/
theorem get_progress_spec_witness :
    get_progress storeC9 "9999" = .errorBody "Session not found" ∧
    get_progress storeC9 "1700000000" = .record (initJob "trakin_tech") :=
  ⟨(get_progress_spec storeC9 "9999").1 (by decide),
   (get_progress_spec storeC9 "1700000000").2 (initJob "trakin_tech") (by decide)⟩

/-- C10: for valid bodies, `process_video` derives the session id as
`str(int(time.time()))` — a function of the clock second only — so two requests
in the same second receive the same session id; each request initialises the
session record before starting the background thread (the event list has the
record initialisation strictly first), and the second request's initialisation
overwrites the first job's record in the store. -/
theorem process_video_same_second (now : Nat) (b1 b2 : ProcessBody)
    (store : String → Option Job)
    (hu1 : truthy b1.url = true) (hc1 : truthy b1.channel = true)
    (hu2 : truthy b2.url = true) (hc2 : truthy b2.channel = true) :
    (process_video now b1).1 = .ok (toString now) ∧
    (process_video now b2).1 = .ok (toString now) ∧
    (process_video now b1).2 =
      [.initRecord (toString now) (initJob (b1.channel.getD "")),
       .startThread (toString now) (b1.url.getD "")] ∧
    (process_video now b2).2 =
      [.initRecord (toString now) (initJob (b2.channel.getD "")),
       .startThread (toString now) (b2.url.getD "")] ∧
    applyEvents (applyEvents store (process_video now b1).2)
        (process_video now b2).2 (toString now) =
      some (initJob (b2.channel.getD "")) := by
  refine ⟨?_, ?_, ?_, ?_, ?_⟩ <;>
    simp [process_video, hu1, hc1, hu2, hc2, applyEvents, applyEvent]

/-- C10 witness body 1. -/
def bodyC10a : ProcessBody :=
  { url := some "https://youtu.be/abc12345678", channel := some "trakin_tech" }

/-- C10 witness body 2: a different request in the same second. -/
def bodyC10b : ProcessBody :=
  { url := some "https://youtu.be/zzz98765432", channel := some "trakin_tech_marathi" }

/-- C10 witness: two distinct valid requests at epoch second 1700000000. -/
theorem process_video_same_second_witness :
    (process_video 1700000000 bodyC10a).1 = .ok (toString 1700000000) ∧
    (process_video 1700000000 bodyC10b).1 = .ok (toString 1700000000) ∧
    (process_video 1700000000 bodyC10a).2 =
      [.initRecord (toString 1700000000) (initJob (bodyC10a.channel.getD "")),
       .startThread (toString 1700000000) (bodyC10a.url.getD "")] ∧
    (process_video 1700000000 bodyC10b).2 =
      [.initRecord (toString 1700000000) (initJob (bodyC10b.channel.getD "")),
       .startThread (toString 1700000000) (bodyC10b.url.getD "")] ∧
    applyEvents (applyEvents (fun _ => none) (process_video 1700000000 bodyC10a).2)
        (process_video 1700000000 bodyC10b).2 (toString 1700000000) =
      some (initJob (bodyC10b.channel.getD "")) :=
  process_video_same_second 1700000000 bodyC10a bodyC10b (fun _ => none)
    (by decide) (by decide) (by decide) (by decide)

theorem attempt_download_error_eq (fsExists : String → Bool) (b : StrategyBehavior)
    (name : String) (job : Job) :
    ((attempt_download fsExists b name job).2).error = job.error := by
  unfold attempt_download
  cases hx : b.extract with
  | error e => rfl
  | ok title =>
    cases hd : b.download with
    | some e => rfl
    | none =>
      by_cases hf : fsExists (find_audio_file fsExists (sanitize_title title))
      · simp [if_pos hf]
      · simp [if_neg hf]

theorem attemptOutcome_ok_fs {fsExists : String → Bool} {b : StrategyBehavior}
    {v : String × String} (h : attemptOutcome fsExists b = .ok v) :
    fsExists v.1 = true ∧ v.1 = find_audio_file fsExists v.2 ∧
      ∃ title, v.2 = sanitize_title title := by
  unfold attemptOutcome at h
  cases hx : b.extract with
  | error e => simp [hx] at h
  | ok title =>
    simp only [hx] at h
    cases hd : b.download with
    | some e => simp [hd] at h
    | none =>
      simp only [hd] at h
      by_cases hf : fsExists (find_audio_file fsExists (sanitize_title title))
      · simp only [if_pos hf] at h
        cases h
        exact ⟨hf, rfl, title, rfl⟩
      · simp [if_neg hf] at h

theorem try_strategy_result_ok {env : DlEnv} {s : Strategy} {job : Job}
    {att : List Strategy} {next : Job → List Strategy → DlResult}
    {v : String × String}
    (hnext : ∀ j a, (next j a).result = .ok v →
      ∃ t, attemptOutcome env.fsExists (env.behavior t) = .ok v)
    (h : (try_strategy env s job att next).result = .ok v) :
    ∃ t, attemptOutcome env.fsExists (env.behavior t) = .ok v := by
  rcases ho : attemptOutcome env.fsExists (env.behavior s) with e | w
  · rw [try_strategy_error ho] at h
    exact hnext _ _ h
  · rw [try_strategy_ok ho] at h
    simp only at h
    cases h
    exact ⟨s, ho⟩

theorem final_strategy_result_ok {env : DlEnv} {job : Job}
    {att : List Strategy} {v : String × String}
    (h : (final_strategy env job att).result = .ok v) :
    attemptOutcome env.fsExists (env.behavior .android_basic) = .ok v := by
  rcases ho : attemptOutcome env.fsExists (env.behavior .android_basic) with e | w
  · rw [final_strategy_error ho] at h
    simp at h
  · rw [final_strategy_ok ho] at h
    simp only at h
    cases h
    rfl

theorem download_audio_ok {env : DlEnv} {job : Job} {v : String × String}
    (h : (download_audio env job).result = .ok v) :
    ∃ s, attemptOutcome env.fsExists (env.behavior s) = .ok v := by
  simp only [download_audio] at h
  rcases hc : truthy env.youtube_cookies with _ | _ <;>
    simp only [hc, Bool.false_eq_true, if_false, if_true] at h
  · exact try_strategy_result_ok (fun _ _ h2 =>
      try_strategy_result_ok (fun _ _ h3 =>
        try_strategy_result_ok (fun _ _ h4 =>
          try_strategy_result_ok (fun _ _ h5 =>
            ⟨.android_basic, final_strategy_result_ok h5⟩) h4) h3) h2) h
  · exact try_strategy_result_ok (fun _ _ h1 =>
      try_strategy_result_ok (fun _ _ h2 =>
        try_strategy_result_ok (fun _ _ h3 =>
          try_strategy_result_ok (fun _ _ h4 =>
            try_strategy_result_ok (fun _ _ h5 =>
              ⟨.android_basic, final_strategy_result_ok h5⟩) h4) h3) h2) h1) h

theorem try_strategy_ok_error_eq {env : DlEnv} {s : Strategy} {job : Job}
    {att : List Strategy} {next : Job → List Strategy → DlResult}
    {v : String × String}
    (hnext : ∀ j a, (next j a).result = .ok v → (next j a).job.error = j.error)
    (h : (try_strategy env s job att next).result = .ok v) :
    (try_strategy env s job att next).job.error = job.error := by
  rcases ho : attemptOutcome env.fsExists (env.behavior s) with e | w
  · rw [try_strategy_error ho] at h ⊢
    rw [hnext _ _ h, attempt_download_error_eq]
  · rw [try_strategy_ok ho]
    simp [attempt_download_error_eq]

theorem final_strategy_ok_error_eq {env : DlEnv} {job : Job}
    {att : List Strategy} {v : String × String}
    (h : (final_strategy env job att).result = .ok v) :
    (final_strategy env job att).job.error = job.error := by
  rcases ho : attemptOutcome env.fsExists (env.behavior .android_basic) with e | w
  · rw [final_strategy_error ho] at h
    simp at h
  · rw [final_strategy_ok ho]
    simp [attempt_download_error_eq]

theorem download_audio_ok_error {env : DlEnv} {job : Job} {v : String × String}
    (h : (download_audio env job).result = .ok v) :
    (download_audio env job).job.error = job.error := by
  simp only [download_audio] at h ⊢
  rcases hc : truthy env.youtube_cookies with _ | _ <;>
    simp only [hc, Bool.false_eq_true, if_false, if_true] at h ⊢
  · rw [try_strategy_ok_error_eq (fun _ _ h2 =>
      try_strategy_ok_error_eq (fun _ _ h3 =>
        try_strategy_ok_error_eq (fun _ _ h4 =>
          try_strategy_ok_error_eq (fun _ _ h5 =>
            final_strategy_ok_error_eq h5) h4) h3) h2) h]
  · rw [try_strategy_ok_error_eq (fun _ _ h1 =>
      try_strategy_ok_error_eq (fun _ _ h2 =>
        try_strategy_ok_error_eq (fun _ _ h3 =>
          try_strategy_ok_error_eq (fun _ _ h4 =>
            try_strategy_ok_error_eq (fun _ _ h5 =>
              final_strategy_ok_error_eq h5) h4) h3) h2) h1) h]

theorem transcribe_audio_fst_ok {outcome : Except PyErr String}
    {safe_title : String} {job : Job} {sr : String × String}
    (h : (transcribe_audio outcome safe_title job).1 = .ok sr) :
    sr.1 = "/Users/amanattar/Developer/youtube_CC/" ++ safe_title ++ ".srt" ∧
    (transcribe_audio outcome safe_title job).2 =
      { job with status := "Translating audio to English...", progress := 80, srt_file := "/Users/amanattar/Developer/youtube_CC/" ++ safe_title ++ ".srt" } := by
  cases outcome with
  | error e => simp [transcribe_audio] at h
  | ok resp =>
    simp only [transcribe_audio] at h ⊢
    cases h
    exact ⟨by rfl, trivial⟩

theorem generate_description_ok_fields {g : String → Except PyErr String}
    {sf c : String} {job : Job} {v : String × String}
    (h : (generate_description g sf c job).result = .ok v) :
    (generate_description g sf c job).job =
      { job with status := "Completed!", progress := 100, description_file := py_replace sf ".srt" "_description.txt" } := by
  unfold generate_description at h ⊢
  by_cases hlen : (py_strip c).length < 50
  · simp [hlen] at h
  · simp only [hlen, if_false] at h ⊢
    cases hg : g (get_channel_prompt job.channel c) with
    | error e => rw [hg] at h; simp at h
    | ok r => rfl

theorem handle_background_error_spec (e : PyErr) (job : Job) :
    (handle_background_error e job).job.error.isSome = true ∧
    (handle_background_error e job).removed = [] := by
  cases e <;> simp [handle_background_error]

/-- Case analysis of one background run: either some stage failed (the handler
recorded an error and nothing was removed), or all stages succeeded and the
final record carries the completed fields while exactly the downloaded audio
file was removed. -/
theorem bg_spec (env : PipelineEnv) (job : Job) :
    ((process_video_background env job).job.error.isSome = true ∧
     (process_video_background env job).removed = []) ∨
    (∃ av : String × String,
      (download_audio env.dl job).result = .ok av ∧
      env.dl.fsExists av.1 = true ∧
      av.1 = find_audio_file env.dl.fsExists av.2 ∧
      (∃ title, av.2 = sanitize_title title) ∧
      (process_video_background env job).removed = [av.1] ∧
      (process_video_background env job).job.error = job.error ∧
      (process_video_background env job).job.progress = 100 ∧
      (process_video_background env job).job.status = "Completed!" ∧
      (process_video_background env job).job.srt_file =
        "/Users/amanattar/Developer/youtube_CC/" ++ av.2 ++ ".srt" ∧
      (process_video_background env job).job.description_file =
        py_replace ("/Users/amanattar/Developer/youtube_CC/" ++ av.2 ++ ".srt")
          ".srt" "_description.txt") := by
  simp only [process_video_background]
  cases hl : load_models env.openai_key env.gemini_key with
  | error e => exact Or.inl (handle_background_error_spec e job)
  | ok u =>
    dsimp only
    cases hdl : (download_audio env.dl job).result with
    | error e => exact Or.inl (handle_background_error_spec e _)
    | ok av =>
      dsimp only
      cases htr : (transcribe_audio env.transcription av.2
          (download_audio env.dl job).job).1 with
      | error e => exact Or.inl (handle_background_error_spec e _)
      | ok sr =>
        dsimp only
        cases hgr : (generate_description env.generation sr.1 sr.2
            (transcribe_audio env.transcription av.2
              (download_audio env.dl job).job).2).result with
        | error e => exact Or.inl (handle_background_error_spec e _)
        | ok dv =>
          dsimp only
          refine Or.inr ⟨av, rfl, ?_, ?_, ?_, ?_, ?_, ?_, ?_, ?_, ?_⟩
          · obtain ⟨s, hout⟩ := download_audio_ok hdl
            exact (attemptOutcome_ok_fs hout).1
          · obtain ⟨s, hout⟩ := download_audio_ok hdl
            exact (attemptOutcome_ok_fs hout).2.1
          · obtain ⟨s, hout⟩ := download_audio_ok hdl
            exact (attemptOutcome_ok_fs hout).2.2
          · obtain ⟨s, hout⟩ := download_audio_ok hdl
            simp [(attemptOutcome_ok_fs hout).1]
          · rw [generate_description_ok_fields hgr]
            simp only
            rw [(transcribe_audio_fst_ok htr).2]
            simp only
            exact download_audio_ok_error hdl
          · rw [generate_description_ok_fields hgr]
          · rw [generate_description_ok_fields hgr]
          · rw [generate_description_ok_fields hgr]
            simp only
            rw [(transcribe_audio_fst_ok htr).2]
          · rw [generate_description_ok_fields hgr]
            simp only
            rw [(transcribe_audio_fst_ok htr).1]

theorem mem_replace_chars (pat repl : List Char) (c : Char) (hpat : c ∉ pat) :
    ∀ n : Nat, ∀ s : List Char, s.length ≤ n → c ∈ s →
      c ∈ replace_chars pat repl s := by
  intro n
  induction n with
  | zero =>
    intro s hlen hmem
    cases s with
    | nil => simp at hmem
    | cons a rest => simp at hlen
  | succ n ih =>
    intro s hlen hmem
    cases s with
    | nil => simp at hmem
    | cons a rest =>
      rw [replace_chars]
      by_cases hp : pat ≠ [] ∧ pat.isPrefixOf (a :: rest)
      · rw [dif_pos hp]
        obtain ⟨t, ht⟩ := List.isPrefixOf_iff_prefix.mp hp.2
        have hdrop : (a :: rest).drop pat.length = t := by
          rw [← ht, List.drop_left]
        have hct : c ∈ t := by
          rw [← ht] at hmem
          rcases List.mem_append.mp hmem with hh | hh
          · exact absurd hh hpat
          · exact hh
        have hlt : t.length ≤ n := by
          have h1 := congrArg List.length ht
          simp at h1 hlen
          have h2 : 0 < pat.length := List.length_pos.mpr hp.1
          omega
        rw [hdrop]
        exact List.mem_append.mpr (Or.inr (ih t hlt hct))
      · rw [dif_neg hp]
        rcases List.mem_cons.mp hmem with hh | hh
        · exact List.mem_cons.mpr (Or.inl hh)
        · have hr : rest.length ≤ n := by
            simp at hlen
            omega
          exact List.mem_cons.mpr (Or.inr (ih rest hr hh))

theorem slash_mem_py_replace {s : String} (h : '/' ∈ s.data) :
    '/' ∈ (py_replace s ".srt" "_description.txt").data := by
  show '/' ∈ replace_chars (".srt").data ("_description.txt").data s.data
  exact mem_replace_chars _ _ _ (by decide) s.data.length s.data le_rfl h

theorem no_slash_sanitize_title (title : String) :
    '/' ∉ (sanitize_title title).data := by
  intro hmem
  have hmem' : '/' ∈ ((title.data.filter
      (keeps_title_char py_isalnum_ascii)).reverse.dropWhile is_py_whitespace).reverse := hmem
  have h2 := (reverse_dropWhile_reverse_sublist is_py_whitespace
    (title.data.filter (keeps_title_char py_isalnum_ascii))).subset hmem'
  have h3 := List.of_mem_filter h2
  exact absurd h3 (by decide)

theorem no_slash_find_audio_file {fsExists : String → Bool} {safe_title : String}
    (h : '/' ∉ safe_title.data) :
    '/' ∉ (find_audio_file fsExists safe_title).data := by
  unfold find_audio_file
  by_cases h1 : fsExists (safe_title ++ ".m4a")
  · simp only [if_pos h1]
    intro hmem
    rw [String.data_append] at hmem
    rcases List.mem_append.mp hmem with hh | hh
    · exact h hh
    · exact absurd hh (by decide)
  · simp only [if_neg h1]
    cases hf : ([".webm", ".mp4", ".opus", ".aac"].find? fun ext =>
        fsExists (safe_title ++ ext)) with
    | none =>
      intro hmem
      rw [String.data_append] at hmem
      rcases List.mem_append.mp hmem with hh | hh
      · exact h hh
      · exact absurd hh (by decide)
    | some ext =>
      have hext := List.mem_of_find?_eq_some hf
      intro hmem
      rw [String.data_append] at hmem
      rcases List.mem_append.mp hmem with hh | hh
      · exact h hh
      · have hext' : ext = ".webm" ∨ ext = ".mp4" ∨ ext = ".opus" ∨ ext = ".aac" := by
          simpa using hext
        rcases hext' with h1 | h1 | h1 | h1 <;> (subst h1; revert hh; decide)

/-- Download environment where the second strategy succeeds at once. -/
def dlenvC3 : DlEnv :=
  { youtube_cookies := none,
    fsExists := fun f => f = "Test Video.m4a",
    behavior := fun _ => { extract := .ok "Test Video", download := none } }

/-- C3 failing input: credentials present, download and transcription succeed,
but the transcript is only 8 characters long. -/
def envC3 : PipelineEnv :=
  { openai_key := some "sk-test", gemini_key := some "gm-test",
    dl := dlenvC3,
    transcription := .ok "hi there",
    generation := fun _ => .ok "unused" }

/-- C3: the too-short-subtitle `ValueError` raised by `generate_description` is
caught by the orchestrator's `except ValueError` clause, so the job is recorded
with the configuration-error status and a "Configuration error:" prefix even
though no credential is missing — a poller cannot distinguish it from a missing
API key. -/
theorem bg_short_srt_misclassified :
    (process_video_background envC3 (initJob "trakin_tech")).job.status =
      "Configuration error - check API keys" ∧
    (process_video_background envC3 (initJob "trakin_tech")).job.error =
      some "Configuration error: SRT content is too short (8 chars). File may be empty or corrupted." := by
  refine ⟨?_, ?_⟩ <;> decide

/-- Download environment for a fully successful run. -/
def dlenvC4 : DlEnv :=
  { youtube_cookies := none,
    fsExists := fun f => f = "Test Video.m4a",
    behavior := fun _ => { extract := .ok "Test Video", download := none } }

/-- A subtitle text longer than 50 characters. -/
def srtC4text : String :=
  "1\n00:00:00,000 --> 00:00:04,000\nHello everyone and welcome back to the channel for a full review.\n"

/-- C4 environment: every stage succeeds. -/
def envC4 : PipelineEnv :=
  { openai_key := some "sk-test", gemini_key := some "gm-test",
    dl := dlenvC4,
    transcription := .ok srtC4text,
    generation := fun _ => .ok "Generated description text" }

/-- C4 counterexample: a job that runs to completion (no error recorded) ends
with progress 100 but with the literal status "Completed!", not the string
"Completed" required by the claim. -/
theorem bg_completed_status_counterexample :
    (process_video_background envC4 (initJob "trakin_tech")).job.error = none ∧
    (process_video_background envC4 (initJob "trakin_tech")).job.progress = 100 ∧
    (process_video_background envC4 (initJob "trakin_tech")).job.status ≠ "Completed" := by
  refine ⟨?_, ?_, ?_⟩ <;> decide

/-- C4 (amended): every job that runs to completion (no error recorded by any
stage) ends with progress exactly 100 and status exactly the string
"Completed!". -/
theorem bg_completed_status (env : PipelineEnv) (job : Job)
    (hdone : (process_video_background env job).job.error = none) :
    (process_video_background env job).job.progress = 100 ∧
    (process_video_background env job).job.status = "Completed!" := by
  rcases bg_spec env job with ⟨herr, _⟩ |
    ⟨av, _, _, _, _, _, _, hprog, hstat, _, _⟩
  · rw [hdone] at herr
    simp at herr
  · exact ⟨hprog, hstat⟩

/-- C4 witness: the amended theorem applied to a concrete successful run. -/
theorem bg_completed_status_witness :
    (process_video_background envC4 (initJob "trakin_tech")).job.progress = 100 ∧
    (process_video_background envC4 (initJob "trakin_tech")).job.status = "Completed!" :=
  bg_completed_status envC4 (initJob "trakin_tech") (by decide)

/-- Download environment shared by the C5 runs: the second strategy yields
"Test Video.m4a". -/
def dlenvC5 : DlEnv :=
  { youtube_cookies := none,
    fsExists := fun f => f = "Test Video.m4a",
    behavior := fun _ => { extract := .ok "Test Video", download := none } }

/-- C5 counterexample environment: download succeeds, transcription fails. -/
def envC5fail : PipelineEnv :=
  { openai_key := some "sk-test", gemini_key := some "gm-test",
    dl := dlenvC5,
    transcription := .error (.otherError "connection reset by peer"),
    generation := fun _ => .ok "unused" }

/-- C5 counterexample: the download stage produced an audio file and the
pipeline then failed, yet the orchestrator removed nothing — contrary to the
claim that the audio file is deleted after the pipeline completes or fails. -/
theorem bg_cleanup_counterexample :
    (download_audio envC5fail.dl (initJob "trakin_tech")).result =
      .ok ("Test Video.m4a", "Test Video") ∧
    (process_video_background envC5fail (initJob "trakin_tech")).job.error ≠ none ∧
    (process_video_background envC5fail (initJob "trakin_tech")).removed = [] := by
  refine ⟨rfl, ?_, ?_⟩ <;> decide

/-- C5 (amended): the orchestrator deletes the downloaded audio file only when
the pipeline completes successfully; when any stage fails it removes nothing
(the audio file is retained), and in no case does it remove the transcript or
the description file. -/
theorem bg_cleanup (env : PipelineEnv) (job : Job) (h0 : job.error = none) :
    ((process_video_background env job).job.error ≠ none →
      (process_video_background env job).removed = []) ∧
    ((process_video_background env job).job.error = none →
      ∃ av : String × String,
        (download_audio env.dl job).result = .ok av ∧
        (process_video_background env job).removed = [av.1]) ∧
    (process_video_background env job).job.srt_file ∉
      (process_video_background env job).removed ∧
    (process_video_background env job).job.description_file ∉
      (process_video_background env job).removed := by
  rcases bg_spec env job with ⟨herr, hrem⟩ |
    ⟨av, hdl, hfs, hfind, ⟨title, htitle⟩, hrem, herr, hprog, hstat, hsrt, hdesc⟩
  · refine ⟨fun _ => hrem, fun hnone => ?_, ?_, ?_⟩
    · rw [hnone] at herr
      simp at herr
    · rw [hrem]
      simp
    · rw [hrem]
      simp
  · have hslash_av : '/' ∉ av.1.data := by
      rw [hfind, htitle]
      exact no_slash_find_audio_file (no_slash_sanitize_title title)
    have hslash_srt :
        '/' ∈ ("/Users/amanattar/Developer/youtube_CC/" ++ av.2 ++ ".srt").data := by
      rw [String.data_append, String.data_append]
      exact List.mem_append.mpr (Or.inl (List.mem_append.mpr (Or.inl (by decide))))
    have hsrt_ne : (process_video_background env job).job.srt_file ≠ av.1 := by
      intro heq
      have hpa : ("/Users/amanattar/Developer/youtube_CC/" ++ av.2 ++ ".srt") = av.1 :=
        hsrt.symm.trans heq
      exact hslash_av (hpa ▸ hslash_srt)
    have hdesc_ne : (process_video_background env job).job.description_file ≠ av.1 := by
      intro heq
      have hslash2 := slash_mem_py_replace hslash_srt
      have hpa : py_replace ("/Users/amanattar/Developer/youtube_CC/" ++ av.2 ++ ".srt")
          ".srt" "_description.txt" = av.1 := hdesc.symm.trans heq
      exact hslash_av (hpa ▸ hslash2)
    refine ⟨fun hne => absurd (herr.trans h0) hne, fun _ => ⟨av, hdl, hrem⟩, ?_, ?_⟩
    · rw [hrem]
      simpa using hsrt_ne
    · rw [hrem]
      simpa using hdesc_ne

/-- C5 witness environment: every stage succeeds. -/
def envC5ok : PipelineEnv :=
  { openai_key := some "sk-test", gemini_key := some "gm-test",
    dl := dlenvC5,
    transcription := .ok srtC4text,
    generation := fun _ => .ok "Generated description text" }

/-- C5 witness: the amended cleanup theorem at a concrete environment. -/
theorem bg_cleanup_witness :
    ((process_video_background envC5ok (initJob "trakin_tech")).job.error ≠ none →
      (process_video_background envC5ok (initJob "trakin_tech")).removed = []) ∧
    ((process_video_background envC5ok (initJob "trakin_tech")).job.error = none →
      ∃ av : String × String,
        (download_audio envC5ok.dl (initJob "trakin_tech")).result = .ok av ∧
        (process_video_background envC5ok (initJob "trakin_tech")).removed = [av.1]) ∧
    (process_video_background envC5ok (initJob "trakin_tech")).job.srt_file ∉
      (process_video_background envC5ok (initJob "trakin_tech")).removed ∧
    (process_video_background envC5ok (initJob "trakin_tech")).job.description_file ∉
      (process_video_background envC5ok (initJob "trakin_tech")).removed :=
  bg_cleanup envC5ok (initJob "trakin_tech") rfl

theorem py_strip_length_le (s : String) : (py_strip s).length ≤ s.length := by
  have h1 := (strip_trailing_sublist (s.data.dropWhile is_py_whitespace)).length_le
  have h2 := (List.dropWhile_sublist (l := s.data) (p := is_py_whitespace)).length_le
  show (strip_trailing (s.data.dropWhile is_py_whitespace)).length ≤ s.length
  have hs : s.length = s.data.length := rfl
  omega

/-- C6: when the subtitle text is shorter than 50 characters,
`generate_description` raises the too-short `ValueError`, never invokes the
generative backend, and leaves the description-file field untouched (no
description file is written). -/
theorem generate_description_short (gen : String → Except PyErr String)
    (srt_file srt_content : String) (job : Job)
    (h : srt_content.length < 50) :
    (generate_description gen srt_file srt_content job).result =
      .error (.valueError ("SRT content is too short (" ++
        toString srt_content.length ++ " chars). File may be empty or corrupted.")) ∧
    (generate_description gen srt_file srt_content job).backendCalled = false ∧
    (generate_description gen srt_file srt_content job).job.description_file =
      job.description_file := by
  have hlt : (py_strip srt_content).length < 50 :=
    lt_of_le_of_lt (py_strip_length_le srt_content) h
  refine ⟨?_, ?_, ?_⟩ <;> simp [generate_description, hlt]

/-- C6 witness: a five-character subtitle text. -/
theorem generate_description_short_witness :
    ("short" : String).length < 50 ∧
    ((generate_description (fun _ => .ok "text")
        "/Users/amanattar/Developer/youtube_CC/t.srt" "short"
        (initJob "trakin_tech")).result =
      .error (.valueError ("SRT content is too short (" ++
        toString ("short" : String).length ++ " chars). File may be empty or corrupted.")) ∧
    (generate_description (fun _ => .ok "text")
        "/Users/amanattar/Developer/youtube_CC/t.srt" "short"
        (initJob "trakin_tech")).backendCalled = false ∧
    (generate_description (fun _ => .ok "text")
        "/Users/amanattar/Developer/youtube_CC/t.srt" "short"
        (initJob "trakin_tech")).job.description_file =
      (initJob "trakin_tech").description_file) :=
  ⟨by decide, generate_description_short (fun _ => .ok "text")
    "/Users/amanattar/Developer/youtube_CC/t.srt" "short"
    (initJob "trakin_tech") (by decide)⟩
